import Mathlib

/-!
# Verification of the Live Trash Finder backend (`src/backend/server.py`)

A shallow embedding of the backend server of the TrashMuncher-5000
repository, together with theorems settling the specification claims.

Modelling conventions:
* Python floats appearing in the data path (box coordinates, confidences)
  are modelled as rationals `ℚ`; the `float(...)` / `int(...)` coercions in
  `detect_trash` are identities on this model.
* External library calls (JSON parsing, base64 decoding, image decoding,
  colour conversion, YOLO inference) are oracles carried in an `Env`
  record; the code under verification is everything the server does
  around them.
* Python exceptions are modelled with `Except Unit`; a `try/except`
  block becomes a `match` on the `Except` value.
-/

namespace TrashMuncher

/-! ## String utilities (Python `in`, `str.lower`, `str.title`) -/

/-- `hasPrefixChars needle hay`: Python-style check that `hay` starts with
`needle`, on explicit character lists. -/
def hasPrefixChars : List Char → List Char → Bool
  | [], _ => true
  | _ :: _, [] => false
  | c :: cs, d :: ds => c == d && hasPrefixChars cs ds

/-- `hasSubChars needle hay`: `needle` occurs as a contiguous subsequence of
`hay` (the semantics of Python's `needle in hay` on strings). -/
def hasSubChars (needle : List Char) : List Char → Bool
  | [] => hasPrefixChars needle []
  | c :: cs => hasPrefixChars needle (c :: cs) || hasSubChars needle cs

/-- `strContains s sub`: Python's `sub in s` for strings. -/
def strContains (s sub : String) : Bool :=
  hasSubChars sub.data s.data

/-- Python's `str.lower()` (ASCII-faithful model, per character). -/
def strLower (s : String) : String :=
  ⟨s.data.map Char.toLower⟩

/-- One step of Python's `str.title()`: the boolean records whether the
previous character was alphabetic. -/
def pyTitleGo : Bool → List Char → List Char
  | _, [] => []
  | prev, c :: cs =>
    if c.isAlpha then
      (if prev then c.toLower else c.toUpper) :: pyTitleGo true cs
    else
      c :: pyTitleGo false cs

/-- Python's `str.title()`: uppercase the first character of each
alphabetic run, lowercase the rest (ASCII-faithful model). -/
def pyTitle (s : String) : String :=
  ⟨pyTitleGo false s.data⟩

/-! ## Detector adapter data model -/

/-- One raw box emitted by the black-box YOLO model: the values of
`box.xyxy[0]`, `box.conf[0]` and `int(box.cls[0])` in `detect_trash`. -/
structure Box where
  x1 : ℚ
  y1 : ℚ
  x2 : ℚ
  y2 : ℚ
  conf : ℚ
  cls : Nat
deriving DecidableEq, Repr

/-- One element of the `results` sequence returned by `model(frame)`;
`result.boxes` may be `None`. -/
structure YoloResult where
  boxes : Option (List Box)
deriving DecidableEq, Repr

/-- The dictionary entry appended to `detections` in `detect_trash`. -/
structure Detection where
  bbox : List ℚ
  confidence : ℚ
  class_name : String
  class_id : Nat
  original_class : String
deriving DecidableEq, Repr

/-- The loaded model singleton: its `names` dictionary, modelled as the
list of class-name strings indexed by class id (keys `0 .. length-1`). -/
structure Model where
  names : List String
deriving DecidableEq, Repr

/-! ## The admission rule and the label rule of `detect_trash` -/

/-- The `trash_classes` list defined inside `detect_trash`
(`src/backend/server.py` lines 151-160), verbatim. -/
def trash_classes : List String :=
  ["bottle", "cup", "fork", "knife", "spoon", "bowl",
   "banana", "apple", "sandwich", "orange", "broccoli",
   "carrot", "hot dog", "pizza", "donut", "cake",
   "cell phone", "book", "scissors", "teddy bear",
   "toothbrush", "hair drier", "backpack", "handbag",
   "suitcase", "frisbee", "skis", "snowboard", "sports ball",
   "kite", "baseball bat", "baseball glove", "skateboard",
   "surfboard", "tennis racket", "wine glass"]

/-- The threshold `0.25` of `detect_trash`, written as `mkRat 25 100` so
that comparisons against it are kernel-computable; `threshold_eq` below
proves it equals the literal `0.25 : ℚ`. -/
def confThreshold : ℚ := mkRat 25 100

/-- The `is_potential_trash` condition of `detect_trash`
(`src/backend/server.py` lines 163-174): confidence strictly above 0.25
and (lower-cased class name in the lower-cased allow-list, or one of the
trigger substrings occurring in the lower-cased class name). -/
def is_potential_trash (confidence : ℚ) (class_name : String) : Bool :=
  decide (confidence > confThreshold) &&
    ((trash_classes.map strLower).contains (strLower class_name) ||
     strContains (strLower class_name) "trash" ||
     strContains (strLower class_name) "litter" ||
     strContains (strLower class_name) "waste" ||
     strContains (strLower class_name) "garbage" ||
     strContains (strLower class_name) "cigarette" ||
     strContains (strLower class_name) "can" ||
     strContains (strLower class_name) "bag")

/-- The `trash_type` display label chain of `detect_trash`
(`src/backend/server.py` lines 177-192): first match wins, in the order
written in the source. -/
def trash_type (class_name : String) : String :=
  if strContains (strLower class_name) "bottle" then "Plastic Bottle"
  else if strContains (strLower class_name) "cup" then "Disposable Cup"
  else if strContains (strLower class_name) "can" then "Aluminum Can"
  else if strContains (strLower class_name) "bag" then "Plastic Bag"
  else if strContains (strLower class_name) "cigarette" then "Cigarette Butt"
  else if strContains (strLower class_name) "trash" ||
          strContains (strLower class_name) "garbage" then pyTitle class_name
  else if ["banana", "apple", "orange", "sandwich", "pizza"].any
            (fun food => strContains (strLower class_name) food) then
    "Food Waste: " ++ pyTitle class_name
  else
    "Potential Litter: " ++ pyTitle class_name

/-- The detection dictionary built for an admitted box
(`src/backend/server.py` lines 194-200). -/
def mkDetection (class_name : String) (b : Box) : Detection :=
  { bbox := [b.x1, b.y1, b.x2, b.y2]
    confidence := b.conf
    class_name := trash_type class_name
    class_id := b.cls
    original_class := class_name }

/-- Processing of one box of the inner loop of `detect_trash`: the
dictionary lookup `model.names[class_id]` raises `KeyError` when the id is
not a key (modelled by `Except.error`); otherwise the box yields a
detection exactly when `is_potential_trash` holds. -/
def processBox (names : List String) (b : Box) : Except Unit (Option Detection) :=
  match names[b.cls]? with
  | none => .error ()
  | some class_name =>
    if is_potential_trash b.conf class_name then
      .ok (some (mkDetection class_name b))
    else
      .ok none

/-- The inner `for box in boxes` loop of `detect_trash`. -/
def processBoxes (names : List String) : List Box → Except Unit (List Detection)
  | [] => .ok []
  | b :: bs => do
    let d? ← processBox names b
    let rest ← processBoxes names bs
    match d? with
    | some d => .ok (d :: rest)
    | none => .ok rest

/-- The outer `for result in results` loop of `detect_trash`, including
the `if boxes is not None` guard. -/
def processResults (names : List String) : List YoloResult → Except Unit (List Detection)
  | [] => .ok []
  | r :: rs => do
    let here ←
      match r.boxes with
      | none => Except.ok []
      | some bs => processBoxes names bs
    let rest ← processResults names rs
    .ok (here ++ rest)

/-- `detect_trash` (`src/backend/server.py` lines 122-206): empty list
when the model singleton is `None`; otherwise run inference and the output
loops inside `try`, converting any exception to the empty list. `infer`
is the oracle for the black-box call `model(frame)`. -/
def detect_trash {Img : Type} (model : Option Model)
    (infer : Img → Except Unit (List YoloResult)) (frame : Img) :
    List Detection :=
  match model with
  | none => []
  | some m =>
    match (do
        let results ← infer frame
        processResults m.names results : Except Unit (List Detection)) with
    | .error _ => []
    | .ok ds => ds

/-- All boxes of an inference result, flattened in emission order. -/
def allBoxes (results : List YoloResult) : List Box :=
  results.flatMap (fun r => (r.boxes).getD [])

/-! ## JSON values

The parsed form of the JSON texts exchanged on the websocket. Numbers are
rationals (the payloads of interest carry integers and floats). -/

/-- A parsed JSON value. -/
inductive Json where
  | null : Json
  | bool : Bool → Json
  | num : ℚ → Json
  | str : String → Json
  | arr : List Json → Json
  | obj : List (String × Json) → Json

/-- Python `d[k]` / `d.get(k)` on a parsed JSON value: a value for key `k`
when the value is an object containing it, otherwise nothing (subscripting
a non-object or a missing key raises in Python). Objects produced by
`json.loads` have unique keys, so first-match lookup is exact. -/
def jLookup (j : Json) (k : String) : Option Json :=
  match j with
  | .obj fields => fields.lookup k
  | _ => none

/-- Python `d.get(k, dflt)`. -/
def jLookupD (j : Json) (k : String) (dflt : Json) : Json :=
  (jLookup j k).getD dflt

/-- The JSON rendering of one detection dictionary
(`src/backend/server.py` lines 194-200), as serialized by `json.dumps`. -/
def detectionToJson (d : Detection) : Json :=
  .obj [("bbox", .arr (d.bbox.map Json.num)),
        ("confidence", .num d.confidence),
        ("class_name", .str d.class_name),
        ("class_id", .num d.class_id),
        ("original_class", .str d.original_class)]

/-- The success Result Message of `websocket_detect`
(`src/backend/server.py` lines 226-232): detections, echoed timestamp
(`frame_info.get('timestamp')`, `null` when absent) and echoed frame
counter (`frame_info.get('frame_count', 0)`). -/
def success_response (dets : List Detection) (timestamp : Option Json)
    (frame_count : Json) : Json :=
  .obj [("detections", .arr (dets.map detectionToJson)),
        ("timestamp", timestamp.getD .null),
        ("frame_count", frame_count)]

/-- The decode-failure Result Message of `websocket_detect`
(`src/backend/server.py` lines 235-238). -/
def error_response : Json :=
  .obj [("error", .str "Failed to process frame"),
        ("detections", .arr [])]

/-- Python's `str.split(',')` on the character list: splits at every
comma, keeping empty pieces (`''.split(',') == ['']`). -/
def splitCommaChars : List Char → List (List Char)
  | [] => [[]]
  | c :: cs =>
    if c = ',' then
      [] :: splitCommaChars cs
    else
      match splitCommaChars cs with
      | [] => [[c]]
      | piece :: pieces => (c :: piece) :: pieces

/-- Python's `frame_data.split(',')`. -/
def pySplitComma (s : String) : List String :=
  (splitCommaChars s.data).map (fun cs => ⟨cs⟩)

/-! ## Environment of external oracles -/

/-- The external collaborators of the server, frozen for one run:
`jsonParse` models `json.loads` (`none` = raises), `b64decode` models
`base64.b64decode` (`none` = raises), `imdecode` models
`PIL.Image.open`/`np.array` (`none` = raises on corrupt bytes),
`cvtColor` models `cv2.cvtColor(..., COLOR_RGB2BGR)`, `model`/`infer`
are the model singleton and the black-box inference call. -/
structure Env (Img : Type) where
  jsonParse : String → Option Json
  b64decode : String → Option (List Nat)
  imdecode : List Nat → Option Img
  cvtColor : Img → Img
  model : Option Model
  infer : Img → Except Unit (List YoloResult)

/-- `preprocess_frame` (`src/backend/server.py` lines 107-120): split the
data URI on `','` and take index 1 (IndexError when there is no comma —
and `.split` itself raises when the frame value is not a string), base64
decode, open as an image, convert the colour channels; every failure is
caught by the surrounding `try` and becomes `None`. -/
def preprocess_frame {Img : Type} (env : Env Img) (frame_data : Json) :
    Option Img :=
  match frame_data with
  | .str s =>
    match (pySplitComma s)[1]? with
    | none => none
    | some payload =>
      match env.b64decode payload with
      | none => none
      | some bytes =>
        match env.imdecode bytes with
        | none => none
        | some image => some (env.cvtColor image)
  | _ => none

/-! ## The websocket session loop -/

/-- An event arriving on one session's connection: a text message, or the
client's disconnect (which makes `receive_text` raise
`WebSocketDisconnect`). -/
inductive InEvent where
  | msg : String → InEvent
  | disconnect : InEvent

/-- The body of one iteration of the `while True` loop of
`websocket_detect` (`src/backend/server.py` lines 213-239) for one received
text: `json.loads` (raises on invalid JSON), the `frame_info['frame']`
subscript (raises when the field is absent or the value is not an object),
then `preprocess_frame` and either the success or the decode-failure
Result Message. `Except.error` is an uncaught exception reaching the outer
handlers. -/
def handleMsg {Img : Type} (env : Env Img) (data : String) :
    Except Unit Json :=
  match env.jsonParse data with
  | none => .error ()
  | some frame_info =>
    match jLookup frame_info "frame" with
    | none => .error ()
    | some frameVal =>
      match preprocess_frame env frameVal with
      | some frame =>
        .ok (success_response (detect_trash env.model env.infer frame)
              (jLookup frame_info "timestamp")
              (jLookupD frame_info "frame_count" (.num 0)))
      | none => .ok error_response

/-- The `while True` loop of `websocket_detect` over the session's
incoming events: returns the Result Messages sent, in order, and whether
the loop terminated (an exception reached the outer handlers — client
disconnect or processing error). With no further events the loop is
blocked in `receive_text` and has not terminated. -/
def sessionLoop {Img : Type} (env : Env Img) :
    List InEvent → List Json × Bool
  | [] => ([], false)
  | .disconnect :: _ => ([], true)
  | .msg data :: rest =>
    match handleMsg env data with
    | .error _ => ([], true)
    | .ok out =>
      let (outs, t) := sessionLoop env rest
      (out :: outs, t)

/-- One observable step of a session: receiving a message or sending a
Result Message. -/
inductive Ev where
  | recv : String → Ev
  | send : Json → Ev

/-- The event trace of the session loop: each received message is followed
by its Result Message before the next receive (there is no pipelining). -/
def sessionTrace {Img : Type} (env : Env Img) : List InEvent → List Ev
  | [] => []
  | .disconnect :: _ => []
  | .msg data :: rest =>
    .recv data ::
      match handleMsg env data with
      | .error _ => []
      | .ok out => .send out :: sessionTrace env rest

/-! ## Connection manager and the websocket endpoint -/

/-- Abstract handle for one accepted websocket. -/
abbrev WS := Nat

/-- `ConnectionManager.connect` (`src/backend/server.py` lines 48-50):
accept and append to `active_connections`. -/
def cmConnect (active_connections : List WS) (ws : WS) : List WS :=
  active_connections ++ [ws]

/-- `ConnectionManager.disconnect` (`src/backend/server.py` lines 52-53):
`list.remove`, deleting the first occurrence. -/
def cmDisconnect (active_connections : List WS) (ws : WS) : List WS :=
  active_connections.erase ws

/-- `websocket_detect` (`src/backend/server.py` lines 208-246) as a whole:
connect the websocket, run the session loop on the incoming events, and on
either exception path (`WebSocketDisconnect` or any other exception)
deregister the websocket. Returns the registry after the call and the
Result Messages sent. -/
def websocket_detect {Img : Type} (env : Env Img)
    (registry : List WS) (ws : WS) (events : List InEvent) :
    List WS × List Json :=
  let reg := cmConnect registry ws
  let (outs, terminated) := sessionLoop env events
  (if terminated then cmDisconnect reg ws else reg, outs)

/-! ## HTTP endpoints -/

/-- `health_check` (`src/backend/server.py` lines 248-255): always
succeeds. -/
def health_check (model : Option Model) (device : Option String) : Json :=
  .obj [("status", .str "healthy"),
        ("model_loaded", .bool model.isSome),
        ("device", (device.map Json.str).getD .null)]

/-- `model_info` (`src/backend/server.py` lines 257-269): a 503 error when
the model singleton is `None`, otherwise the model description with the
full class-name list (`model` always has a `names` attribute, so the
`hasattr` guard takes its first branch). -/
def model_info (model : Option Model) (device : Option String) :
    Except Nat Json :=
  match model with
  | none => .error 503
  | some m =>
    .ok (.obj [("model_type", .str "YOLOv8"),
               ("device", (device.map Json.str).getD .null),
               ("classes", .arr (m.names.map Json.str)),
               ("status", .str "ready")])

/-! ## Spec-side definitions

These render the claims' wording, to be compared with the definitions
embedded from the source. -/

/-- The per-box admission function computed by the body of the inner loop
of `detect_trash` for a box whose class id is a key of `names`: the
detection contributed to the result, if any. -/
def admitBox (names : List String) (b : Box) : Option Detection :=
  match names[b.cls]? with
  | none => none
  | some class_name =>
    if is_potential_trash b.conf class_name then
      some (mkDetection class_name b)
    else
      none

/-- The trigger substrings named by the specification. -/
def triggerSubstrings : List String :=
  ["trash", "litter", "waste", "garbage", "cigarette", "can", "bag"]

/-- The admission rule in the words of the specification: confidence
strictly greater than `0.25`, and the lowercased class name equals an
allow-list entry or contains one of the trigger substrings. -/
def specAdmitted (confidence : ℚ) (class_name : String) : Prop :=
  confidence > 0.25 ∧
    (strLower class_name ∈ trash_classes ∨
     ∃ t ∈ triggerSubstrings, strContains (strLower class_name) t = true)

/-- The ordered (predicate, label-producer) rule list of the
specification's label derivation; each predicate reads the lowercased
class name, each producer the raw class name. -/
def labelRules : List ((String → Bool) × (String → String)) :=
  [(fun lc => strContains lc "bottle", fun _ => "Plastic Bottle"),
   (fun lc => strContains lc "cup", fun _ => "Disposable Cup"),
   (fun lc => strContains lc "can", fun _ => "Aluminum Can"),
   (fun lc => strContains lc "bag", fun _ => "Plastic Bag"),
   (fun lc => strContains lc "cigarette", fun _ => "Cigarette Butt"),
   (fun lc => strContains lc "trash" || strContains lc "garbage",
    fun class_name => pyTitle class_name),
   (fun lc => ["banana", "apple", "orange", "sandwich", "pizza"].any
                (fun food => strContains lc food),
    fun class_name => "Food Waste: " ++ pyTitle class_name)]

/-- Top-to-bottom, first-match-wins evaluation of an ordered rule list,
with the specification's default label. -/
def firstMatch : List ((String → Bool) × (String → String)) → String →
    String → String
  | [], _, class_name => "Potential Litter: " ++ pyTitle class_name
  | (p, f) :: rules, lc, class_name =>
    if p lc then f class_name else firstMatch rules lc class_name

/-- The label derivation in the words of the specification. -/
def specLabel (class_name : String) : String :=
  firstMatch labelRules (strLower class_name) class_name

end TrashMuncher

namespace TrashMuncher

/-- The kernel-computable threshold equals the source literal `0.25`. -/
theorem threshold_eq : confThreshold = 0.25 := by
  unfold confThreshold
  norm_num

example : strContains "trash can" "can" = true := by decide

example : pyTitle "banana" = "Banana" := by decide

example : is_potential_trash (mkRat 1 2) "banana" = true := by decide

example : trash_type "trash can" = "Aluminum Can" := by decide

end TrashMuncher

namespace TrashMuncher

/-! ## Shared lemmas -/

/-- When every class id of a box list is a key of `names`, the inner loop
raises nothing and collects exactly the admitted boxes, in order. -/
theorem processBoxes_eq_filterMap (names : List String) (bs : List Box)
    (h : ∀ b ∈ bs, b.cls < names.length) :
    processBoxes names bs = .ok (bs.filterMap (admitBox names)) := by
  induction bs with
  | nil => rfl
  | cons b bs ih =>
    have hb : b.cls < names.length := h b (List.mem_cons_self b bs)
    have hbs : ∀ x ∈ bs, x.cls < names.length :=
      fun x hx => h x (List.mem_cons_of_mem b hx)
    have hname : names[b.cls]? = some names[b.cls] := List.getElem?_eq_getElem hb
    simp only [processBoxes, processBox, admitBox, hname, ih hbs,
      List.filterMap_cons, bind, Except.bind]
    by_cases hpt : is_potential_trash b.conf names[b.cls] = true
    · simp [hpt]
    · simp [hpt]

/-- Same characterization for the outer loop over the results sequence. -/
theorem processResults_eq_filterMap (names : List String)
    (results : List YoloResult)
    (h : ∀ b ∈ allBoxes results, b.cls < names.length) :
    processResults names results = .ok ((allBoxes results).filterMap (admitBox names)) := by
  induction results with
  | nil => rfl
  | cons r rs ih =>
    have hrs : ∀ b ∈ allBoxes rs, b.cls < names.length := by
      intro b hbmem
      exact h b (by simp [allBoxes, List.flatMap_cons] at *; exact Or.inr hbmem)
    cases hb : r.boxes with
    | none =>
      have : allBoxes (r :: rs) = allBoxes rs := by
        simp [allBoxes, List.flatMap_cons, hb]
      simp only [processResults, hb, ih hrs, bind, Except.bind, this]
      rfl
    | some bs =>
      have hbs : ∀ b ∈ bs, b.cls < names.length := by
        intro b hbmem
        exact h b (by simp [allBoxes, List.flatMap_cons, hb]; exact Or.inl hbmem)
      have hall : allBoxes (r :: rs) = bs ++ allBoxes rs := by
        simp [allBoxes, List.flatMap_cons, hb]
      simp only [processResults, hb, processBoxes_eq_filterMap names bs hbs,
        ih hrs, bind, Except.bind, hall, List.filterMap_append]

/-- `detect_trash` with a loaded model and well-formed inference output is
exactly the admitted-box filter over all emitted boxes. -/
theorem detect_trash_eq_filterMap {Img : Type} (m : Model)
    (infer : Img → Except Unit (List YoloResult)) (frame : Img)
    (results : List YoloResult)
    (hinf : infer frame = .ok results)
    (h : ∀ b ∈ allBoxes results, b.cls < m.names.length) :
    detect_trash (some m) infer frame
      = (allBoxes results).filterMap (admitBox m.names) := by
  simp only [detect_trash, hinf, processResults_eq_filterMap m.names results h,
    bind, Except.bind]

/-- The lower-cased allow-list is the allow-list itself: every entry is
already lower case. -/
theorem trash_classes_lower : trash_classes.map strLower = trash_classes := by
  decide

/-- The boolean admission check of the source agrees with the
specification's admission rule. -/
theorem is_potential_trash_iff (confidence : ℚ) (class_name : String) :
    is_potential_trash confidence class_name = true ↔
      specAdmitted confidence class_name := by
  unfold is_potential_trash specAdmitted
  rw [trash_classes_lower]
  simp only [Bool.and_eq_true, Bool.or_eq_true, decide_eq_true_eq,
    List.contains_iff_exists_mem_beq, beq_iff_eq, triggerSubstrings]
  rw [threshold_eq]
  constructor
  · rintro ⟨h1, h2⟩
    refine ⟨h1, ?_⟩
    rcases h2 with ⟨⟨⟨⟨⟨⟨⟨x, hx, hxe⟩ | h⟩ | h⟩ | h⟩ | h⟩ | h⟩ | h⟩ | h <;>
      simp_all
  · rintro ⟨h1, h2⟩
    refine ⟨h1, ?_⟩
    rcases h2 with hmem | ⟨t, ht, hc⟩
    · exact Or.inl (Or.inl (Or.inl (Or.inl (Or.inl (Or.inl (Or.inl ⟨_, hmem, rfl⟩))))))
    · simp only [List.mem_cons, List.not_mem_nil, or_false] at ht
      rcases ht with rfl | rfl | rfl | rfl | rfl | rfl | rfl <;> tauto

/-- Removing a freshly appended websocket restores the registry. -/
theorem cmDisconnect_cmConnect (l : List WS) (ws : WS) (h : ws ∉ l) :
    cmDisconnect (cmConnect l ws) ws = l := by
  unfold cmConnect cmDisconnect
  rw [List.erase_append_right _ h]
  simp

end TrashMuncher

namespace TrashMuncher

/-! ## Sample instances used to instantiate hypotheses of the theorems -/

/-- A two-class sample model. -/
def sampleModel : Model := ⟨["chair", "bottle"]⟩

/-- A high-confidence bottle box. -/
def sampleBottleBox : Box := ⟨0, 0, 10, 10, 1, 1⟩

/-- A high-confidence chair box. -/
def sampleChairBox : Box := ⟨1, 1, 5, 5, 1, 0⟩

/-- A bottle box with confidence `1/10 ≤ 0.25`. -/
def sampleLowConfBox : Box := ⟨2, 2, 3, 3, mkRat 1 10, 1⟩

/-- One inference result carrying the three sample boxes. -/
def sampleResults : List YoloResult :=
  [⟨some [sampleBottleBox, sampleChairBox, sampleLowConfBox]⟩]

/-- An inference oracle that always emits `sampleResults`. -/
def sampleInfer : Nat → Except Unit (List YoloResult) := fun _ => .ok sampleResults

/-- An inference oracle that always raises. -/
def sampleFailInfer : Nat → Except Unit (List YoloResult) := fun _ => .error ()

/-- An inference oracle emitting a box whose class id is not a key of the
sample model's `names`. -/
def sampleBadClsInfer : Nat → Except Unit (List YoloResult) :=
  fun _ => .ok [⟨some [⟨0, 0, 0, 0, 1, 5⟩]⟩]

/-- The low-confidence sample confidence is at most the threshold. -/
theorem sampleLowConf_le : (mkRat 1 10 : ℚ) ≤ 0.25 := by norm_num

/-! ## Claim theorems -/

/-- **C1**: with the model loaded and every emitted class id a key of the
model's names, `detect_trash` returns exactly the boxes admitted by the
rule of the specification: confidence strictly above 0.25 and (lowercased
class name in the allow-list, or containing a trigger substring); a box
with confidence ≤ 0.25 is never admitted, and a box whose class name is
"chair" is never admitted at any confidence. -/
theorem C1_admission_rule {Img : Type} (m : Model)
    (infer : Img → Except Unit (List YoloResult)) (frame : Img)
    (results : List YoloResult)
    (hinf : infer frame = .ok results)
    (hvalid : ∀ b ∈ allBoxes results, b.cls < m.names.length) :
    detect_trash (some m) infer frame
      = (allBoxes results).filterMap (admitBox m.names)
    ∧ (∀ (b : Box) (class_name : String), m.names[b.cls]? = some class_name →
        ((admitBox m.names b).isSome = true ↔ specAdmitted b.conf class_name))
    ∧ (∀ b : Box, b.conf ≤ 0.25 → admitBox m.names b = none)
    ∧ (∀ b : Box, m.names[b.cls]? = some "chair" → admitBox m.names b = none) := by
  refine ⟨detect_trash_eq_filterMap m infer frame results hinf hvalid, ?_, ?_, ?_⟩
  · intro b class_name hname
    unfold admitBox
    rw [hname, ← is_potential_trash_iff]
    cases hpt : is_potential_trash b.conf class_name <;> simp [hpt]
  · intro b hle
    cases hname : m.names[b.cls]? with
    | none => simp [admitBox, hname]
    | some class_name =>
      have hpt : is_potential_trash b.conf class_name = false := by
        rw [Bool.eq_false_iff]
        intro htrue
        have hspec := (is_potential_trash_iff b.conf class_name).mp htrue
        exact absurd hspec.1 (not_lt.mpr hle)
      simp [admitBox, hname, hpt]
  · intro b hname
    have hpt : is_potential_trash b.conf "chair" = false := by
      rw [Bool.eq_false_iff]
      intro htrue
      have hspec := (is_potential_trash_iff b.conf "chair").mp htrue
      have hno : ¬ (strLower "chair" ∈ trash_classes ∨
          ∃ t ∈ triggerSubstrings, strContains (strLower "chair") t = true) := by
        decide
      exact hno hspec.2
    simp [admitBox, hname, hpt]

/-- Concrete instantiation of `C1_admission_rule` on the sample model. -/
theorem C1_admission_rule_witness :
    detect_trash (some sampleModel) sampleInfer 0
      = (allBoxes sampleResults).filterMap (admitBox sampleModel.names)
    ∧ ((admitBox sampleModel.names sampleBottleBox).isSome = true ↔
        specAdmitted sampleBottleBox.conf "bottle")
    ∧ admitBox sampleModel.names sampleLowConfBox = none
    ∧ admitBox sampleModel.names sampleChairBox = none :=
  ⟨(C1_admission_rule sampleModel sampleInfer 0 sampleResults rfl (by decide)).1,
   (C1_admission_rule sampleModel sampleInfer 0 sampleResults rfl (by decide)).2.1
     sampleBottleBox "bottle" rfl,
   (C1_admission_rule sampleModel sampleInfer 0 sampleResults rfl (by decide)).2.2.1
     sampleLowConfBox sampleLowConf_le,
   (C1_admission_rule sampleModel sampleInfer 0 sampleResults rfl (by decide)).2.2.2
     sampleChairBox rfl⟩

/-- **C2**: the display label of an admitted detection is computed by
first-match-wins evaluation of the ordered rule list of the spec
(bottle, cup, can, bag, cigarette, trash/garbage, food set, default), and
the class named "trash can" receives "Aluminum Can" because the "can"
check is evaluated before the "trash" check even though both match. -/
theorem C2_label_order :
    (∀ class_name, trash_type class_name = specLabel class_name)
    ∧ trash_type "trash can" = "Aluminum Can"
    ∧ strContains (strLower "trash can") "can" = true
    ∧ strContains (strLower "trash can") "trash" = true := by
  refine ⟨?_, by decide, by decide, by decide⟩
  intro class_name
  rfl

/-- **C7**: when none of the bottle/cup/can/bag/cigarette/trash/garbage
checks fire, the label is "Food Waste: <title-cased class>" exactly when
the lowercased class name contains one of banana/apple/orange/sandwich/
pizza, otherwise "Potential Litter: <title-cased class>"; and "banana" at
confidence 0.5 is admitted with display label "Food Waste: Banana". -/
theorem C7_food_label :
    (∀ class_name,
      strContains (strLower class_name) "bottle" = false →
      strContains (strLower class_name) "cup" = false →
      strContains (strLower class_name) "can" = false →
      strContains (strLower class_name) "bag" = false →
      strContains (strLower class_name) "cigarette" = false →
      strContains (strLower class_name) "trash" = false →
      strContains (strLower class_name) "garbage" = false →
      trash_type class_name =
        if ["banana", "apple", "orange", "sandwich", "pizza"].any
             (fun food => strContains (strLower class_name) food) then
          "Food Waste: " ++ pyTitle class_name
        else
          "Potential Litter: " ++ pyTitle class_name)
    ∧ is_potential_trash 0.5 "banana" = true
    ∧ trash_type "banana" = "Food Waste: Banana" := by
  refine ⟨?_, ?_, by decide⟩
  · intro class_name h1 h2 h3 h4 h5 h6 h7
    simp [trash_type, h1, h2, h3, h4, h5, h6, h7]
  · have h : (0.5 : ℚ) = mkRat 1 2 := by norm_num
    rw [h]
    decide

/-- Concrete instantiation of `C7_food_label` on "apple pie". -/
theorem C7_food_label_witness :
    trash_type "apple pie" =
      if ["banana", "apple", "orange", "sandwich", "pizza"].any
           (fun food => strContains (strLower "apple pie") food) then
        "Food Waste: " ++ pyTitle "apple pie"
      else
        "Potential Litter: " ++ pyTitle "apple pie" :=
  C7_food_label.1 "apple pie" (by decide) (by decide) (by decide) (by decide)
    (by decide) (by decide) (by decide)

/-- **C5**: `detect_trash` never raises: with no model singleton it
returns the empty list; with a loaded model, an inference error or an
error during output processing (a class id that is not a key of the names
dictionary) also yields the empty list. -/
theorem C5_detect_total {Img : Type}
    (infer : Img → Except Unit (List YoloResult)) (frame : Img) :
    detect_trash (none : Option Model) infer frame = []
    ∧ (∀ (m : Model) (e : Unit), infer frame = .error e →
        detect_trash (some m) infer frame = [])
    ∧ (∀ (m : Model) (results : List YoloResult) (e : Unit),
        infer frame = .ok results →
        processResults m.names results = .error e →
        detect_trash (some m) infer frame = []) := by
  refine ⟨rfl, ?_, ?_⟩
  · intro m e h
    simp [detect_trash, h, bind, Except.bind]
  · intro m results e h1 h2
    simp [detect_trash, h1, h2, bind, Except.bind]

/-- Concrete instantiation of `C5_detect_total` on the three error
paths. -/
theorem C5_detect_total_witness :
    detect_trash (none : Option Model) sampleFailInfer 0 = []
    ∧ detect_trash (some sampleModel) sampleFailInfer 0 = []
    ∧ detect_trash (some sampleModel) sampleBadClsInfer 0 = [] :=
  ⟨(C5_detect_total sampleFailInfer 0).1,
   (C5_detect_total sampleFailInfer 0).2.1 sampleModel () rfl,
   (C5_detect_total sampleBadClsInfer 0).2.2 sampleModel _ () rfl rfl⟩

/-- **C10**: every detection emitted by `detect_trash` carries the bbox
coordinates, confidence and class id of one of the raw model boxes, its
`original_class` is the model's own name for that class id, and its
`class_name` is the relabeling of that raw name — nothing else is
changed. -/
theorem C10_field_passthrough {Img : Type} (m : Model)
    (infer : Img → Except Unit (List YoloResult)) (frame : Img)
    (results : List YoloResult)
    (hinf : infer frame = .ok results)
    (hvalid : ∀ b ∈ allBoxes results, b.cls < m.names.length) :
    ∀ d ∈ detect_trash (some m) infer frame,
      ∃ b ∈ allBoxes results,
        d.bbox = [b.x1, b.y1, b.x2, b.y2] ∧
        d.confidence = b.conf ∧
        d.class_id = b.cls ∧
        m.names[b.cls]? = some d.original_class ∧
        d.class_name = trash_type d.original_class := by
  intro d hd
  rw [detect_trash_eq_filterMap m infer frame results hinf hvalid,
    List.mem_filterMap] at hd
  obtain ⟨b, hb, hab⟩ := hd
  refine ⟨b, hb, ?_⟩
  cases hname : m.names[b.cls]? with
  | none => simp [admitBox, hname] at hab
  | some class_name =>
    simp only [admitBox, hname] at hab
    by_cases hpt : is_potential_trash b.conf class_name = true
    · rw [if_pos hpt] at hab
      obtain rfl := (Option.some.injEq _ _).mp hab
      simp [mkDetection, hname]
    · rw [if_neg hpt] at hab
      cases hab

/-- Concrete instantiation of `C10_field_passthrough` on the sample
model's single admitted detection. -/
theorem C10_field_passthrough_witness :
    ∃ b ∈ allBoxes sampleResults,
      (mkDetection "bottle" sampleBottleBox).bbox = [b.x1, b.y1, b.x2, b.y2] ∧
      (mkDetection "bottle" sampleBottleBox).confidence = b.conf ∧
      (mkDetection "bottle" sampleBottleBox).class_id = b.cls ∧
      sampleModel.names[b.cls]? =
        some (mkDetection "bottle" sampleBottleBox).original_class ∧
      (mkDetection "bottle" sampleBottleBox).class_name =
        trash_type (mkDetection "bottle" sampleBottleBox).original_class :=
  C10_field_passthrough sampleModel sampleInfer 0 sampleResults rfl (by decide)
    (mkDetection "bottle" sampleBottleBox) (by decide)

end TrashMuncher

namespace TrashMuncher

/-- A concrete sample environment over `Img := Nat`: `"good"` parses to a
frame message whose frame decodes successfully, `"noframe"` parses to an
object without a `"frame"` field, `"badframe"` parses to a frame message
whose data URI has no comma, and any other text is invalid JSON. -/
def sampleEnv : Env Nat :=
  { jsonParse := fun s =>
      if s = "good" then
        some (.obj [("frame", .str "data:image/jpeg;base64,QUJD"),
                    ("frame_count", .num 3)])
      else if s = "noframe" then
        some (.obj [("timestamp", .num 7)])
      else if s = "badframe" then
        some (.obj [("frame", .str "nocommahere")])
      else none
    b64decode := fun p => if p = "QUJD" then some [65, 66, 67] else none
    imdecode := fun bytes => if bytes = [65, 66, 67] then some 1 else none
    cvtColor := fun img => img
    model := none
    infer := fun _ => .ok [] }

/-- `handleMsg` on the decodable sample message. -/
theorem sampleEnv_handleMsg_good :
    handleMsg sampleEnv "good"
      = .ok (success_response [] none (.num 3)) := rfl

/-- **C3** (counterexample): in the sample environment, the message
`"good"` alone is answered with a Result Message, but a message that is
not valid JSON — and likewise one parsing to an object without a
`"frame"` field — makes the session send nothing at all (in particular
not the error Result Message) and terminate its loop, so the following
`"good"` message is never read, contrary to the claim. -/
theorem C3_counterexample :
    sessionLoop sampleEnv [.msg "good"]
      = ([success_response [] none (.num 3)], false)
    ∧ sessionLoop sampleEnv [.msg "notjson", .msg "good"] = ([], true)
    ∧ sessionLoop sampleEnv [.msg "noframe", .msg "good"] = ([], true) :=
  ⟨rfl, rfl, rfl⟩

/-- **C3** (amended): a text message that is not valid JSON, or that
parses without a `"frame"` field, raises out of the loop body; the outer
exception handler catches it, so the session sends no Result Message for
it, stops reading further messages, and its websocket is deregistered —
the loop terminates cleanly rather than the exception propagating. -/
theorem C3_bad_message_terminates {Img : Type} (env : Env Img)
    (data : String) (rest : List InEvent)
    (h : env.jsonParse data = none ∨
         ∃ frame_info, env.jsonParse data = some frame_info ∧
           jLookup frame_info "frame" = none) :
    sessionLoop env (.msg data :: rest) = ([], true)
    ∧ ∀ (registry : List WS) (ws : WS), ws ∉ registry →
        (websocket_detect env registry ws (.msg data :: rest)).1 = registry := by
  have herr : ∃ e, handleMsg env data = .error e := by
    rcases h with hparse | ⟨frame_info, hparse, hframe⟩
    · exact ⟨(), by simp [handleMsg, hparse]⟩
    · exact ⟨(), by simp [handleMsg, hparse, hframe]⟩
  obtain ⟨e, he⟩ := herr
  have hloop : sessionLoop env (.msg data :: rest) = ([], true) := by
    simp [sessionLoop, he]
  refine ⟨hloop, ?_⟩
  intro registry ws hws
  unfold websocket_detect
  rw [hloop]
  simpa using cmDisconnect_cmConnect registry ws hws

/-- Concrete instantiation of `C3_bad_message_terminates` on the
invalid-JSON sample message. -/
theorem C3_bad_message_terminates_witness :
    sessionLoop sampleEnv [.msg "notjson", .msg "good"] = ([], true)
    ∧ ∀ (registry : List WS) (ws : WS), ws ∉ registry →
        (websocket_detect sampleEnv registry ws
          [.msg "notjson", .msg "good"]).1 = registry :=
  C3_bad_message_terminates sampleEnv "notjson" [.msg "good"] (Or.inl rfl)

/-- **C4**: `preprocess_frame` returns the `None` sentinel on every decode
failure (no comma in the data URI, base64 failure, corrupt image bytes);
the session then sends exactly the decode-failure Result Message
`{"error": "Failed to process frame", "detections": []}` and continues
with the remaining messages. -/
theorem C4_decode_failure {Img : Type} (env : Env Img) :
    (∀ s : String, (pySplitComma s)[1]? = none →
        preprocess_frame env (.str s) = none)
    ∧ (∀ (s payload : String), (pySplitComma s)[1]? = some payload →
        env.b64decode payload = none →
        preprocess_frame env (.str s) = none)
    ∧ (∀ (s payload : String) (bytes : List Nat),
        (pySplitComma s)[1]? = some payload →
        env.b64decode payload = some bytes →
        env.imdecode bytes = none →
        preprocess_frame env (.str s) = none)
    ∧ (∀ (data : String) (frame_info frameVal : Json) (rest : List InEvent),
        env.jsonParse data = some frame_info →
        jLookup frame_info "frame" = some frameVal →
        preprocess_frame env frameVal = none →
        handleMsg env data = .ok error_response ∧
        sessionLoop env (.msg data :: rest)
          = (error_response :: (sessionLoop env rest).1,
             (sessionLoop env rest).2))
    ∧ error_response
        = .obj [("error", .str "Failed to process frame"),
                ("detections", .arr [])] := by
  refine ⟨?_, ?_, ?_, ?_, rfl⟩
  · intro s h
    simp [preprocess_frame, h]
  · intro s payload h1 h2
    simp [preprocess_frame, h1, h2]
  · intro s payload bytes h1 h2 h3
    simp [preprocess_frame, h1, h2, h3]
  · intro data frame_info frameVal rest h1 h2 h3
    have hmsg : handleMsg env data = .ok error_response := by
      simp [handleMsg, h1, h2, h3]
    exact ⟨hmsg, by simp [sessionLoop, hmsg]⟩

/-- Concrete instantiation of `C4_decode_failure` on the comma-free
sample frame. -/
theorem C4_decode_failure_witness :
    preprocess_frame sampleEnv (.str "nocommahere") = none
    ∧ handleMsg sampleEnv "badframe" = .ok error_response
    ∧ sessionLoop sampleEnv [.msg "badframe", .msg "good"]
        = (error_response :: (sessionLoop sampleEnv [.msg "good"]).1,
           (sessionLoop sampleEnv [.msg "good"]).2) :=
  ⟨(C4_decode_failure sampleEnv).1 "nocommahere" rfl,
   ((C4_decode_failure sampleEnv).2.2.2.1 "badframe"
      (.obj [("frame", .str "nocommahere")]) (.str "nocommahere")
      [.msg "good"] rfl rfl rfl).1,
   ((C4_decode_failure sampleEnv).2.2.2.1 "badframe"
      (.obj [("frame", .str "nocommahere")]) (.str "nocommahere")
      [.msg "good"] rfl rfl rfl).2⟩

/-- **C6**: a run of messages that all decode is answered by exactly one
Result Message each, in order, with each result sent before the next
message is read (the trace strictly alternates receive/send); a decodable
message's result echoes that message's `timestamp` (absent ↦ `null`) and
`frame_count` (absent ↦ `0`). -/
theorem C6_sequential {Img : Type} (env : Env Img) (msgs : List String)
    (f : String → Json)
    (hok : ∀ s ∈ msgs, handleMsg env s = .ok (f s)) :
    sessionLoop env (msgs.map InEvent.msg) = (msgs.map f, false)
    ∧ sessionTrace env (msgs.map InEvent.msg)
        = msgs.flatMap (fun s => [Ev.recv s, Ev.send (f s)])
    ∧ (∀ (data : String) (frame_info frameVal : Json) (frame : Img),
        env.jsonParse data = some frame_info →
        jLookup frame_info "frame" = some frameVal →
        preprocess_frame env frameVal = some frame →
        handleMsg env data
          = .ok (success_response (detect_trash env.model env.infer frame)
              (jLookup frame_info "timestamp")
              (jLookupD frame_info "frame_count" (.num 0))))
    ∧ (∀ (dets : List Detection) (fc : Json),
        jLookup (success_response dets none fc) "timestamp" = some .null
          ∧ jLookup (success_response dets none fc) "frame_count" = some fc) := by
  refine ⟨?_, ?_, ?_, fun dets fc => ⟨rfl, rfl⟩⟩
  · induction msgs with
    | nil => rfl
    | cons s ss ih =>
      have hs := hok s (List.mem_cons_self s ss)
      have hss : ∀ x ∈ ss, handleMsg env x = .ok (f x) :=
        fun x hx => hok x (List.mem_cons_of_mem s hx)
      simp [sessionLoop, hs, ih hss]
  · induction msgs with
    | nil => rfl
    | cons s ss ih =>
      have hs := hok s (List.mem_cons_self s ss)
      have hss : ∀ x ∈ ss, handleMsg env x = .ok (f x) :=
        fun x hx => hok x (List.mem_cons_of_mem s hx)
      simp [sessionTrace, hs, ih hss]
  · intro data frame_info frameVal frame h1 h2 h3
    simp [handleMsg, h1, h2, h3]

/-- Concrete instantiation of `C6_sequential`: two decodable sample
messages yield exactly two Result Messages, in order, with a strictly
alternating trace. -/
theorem C6_sequential_witness :
    sessionLoop sampleEnv (["good", "good"].map InEvent.msg)
      = (["good", "good"].map (fun _ => success_response [] none (.num 3)),
         false)
    ∧ sessionTrace sampleEnv (["good", "good"].map InEvent.msg)
        = ["good", "good"].flatMap
            (fun s => [Ev.recv s,
                       Ev.send (success_response [] none (.num 3))]) :=
  ⟨(C6_sequential sampleEnv ["good", "good"]
      (fun _ => success_response [] none (.num 3))
      (fun s hs => by
        simp only [List.mem_cons, List.not_mem_nil, or_false] at hs
        rcases hs with rfl | rfl <;> exact sampleEnv_handleMsg_good)).1,
   (C6_sequential sampleEnv ["good", "good"]
      (fun _ => success_response [] none (.num 3))
      (fun s hs => by
        simp only [List.mem_cons, List.not_mem_nil, or_false] at hs
        rcases hs with rfl | rfl <;> exact sampleEnv_handleMsg_good)).2.1⟩

/-- **C8**: the health query always succeeds with status `"healthy"` and
reports `model_loaded` true exactly when the model singleton is loaded;
the model-info query fails with a 503 error exactly when the model is not
loaded, and otherwise returns the model's full class-name list with
status `"ready"`. -/
theorem C8_model_readiness (model : Option Model) (device : Option String) :
    jLookup (health_check model device) "status" = some (.str "healthy")
    ∧ (jLookup (health_check model device) "model_loaded"
        = some (.bool true) ↔ ∃ m, model = some m)
    ∧ ((∃ e, model_info model device = .error e ∧ e = 503) ↔ model = none)
    ∧ (∀ m, model = some m →
        model_info model device
          = .ok (.obj [("model_type", .str "YOLOv8"),
                       ("device", (device.map Json.str).getD .null),
                       ("classes", .arr (m.names.map Json.str)),
                       ("status", .str "ready")])) := by
  cases model <;>
    simp [health_check, model_info, jLookup, List.lookup]

/-- Concrete instantiation of `C8_model_readiness` with and without a
loaded model. -/
theorem C8_model_readiness_witness :
    jLookup (health_check (some sampleModel) (some "cpu")) "status"
      = some (.str "healthy")
    ∧ (jLookup (health_check (none : Option Model) none) "model_loaded"
        = some (.bool true) ↔ ∃ m, (none : Option Model) = some m)
    ∧ ((∃ e, model_info (none : Option Model) none = .error e ∧ e = 503)
        ↔ (none : Option Model) = none)
    ∧ model_info (some sampleModel) (some "cpu")
        = .ok (.obj [("model_type", .str "YOLOv8"),
                     ("device", ((some "cpu").map Json.str).getD .null),
                     ("classes", .arr (sampleModel.names.map Json.str)),
                     ("status", .str "ready")]) :=
  ⟨(C8_model_readiness (some sampleModel) (some "cpu")).1,
   (C8_model_readiness none none).2.1,
   (C8_model_readiness none none).2.2.1,
   (C8_model_readiness (some sampleModel) (some "cpu")).2.2.2
     sampleModel rfl⟩

/-- **C9**: a websocket is appended to the registry exactly once on
connect, and on any terminating run of its loop (client disconnect or an
uncaught processing exception) it is removed again, so afterwards it is
no longer a member of the registry. -/
theorem C9_registry_invariant {Img : Type} (env : Env Img)
    (registry : List WS) (ws : WS) (hfresh : ws ∉ registry)
    (events : List InEvent)
    (hterm : (sessionLoop env events).2 = true) :
    (cmConnect registry ws).count ws = registry.count ws + 1
    ∧ (websocket_detect env registry ws events).1 = registry
    ∧ ws ∉ (websocket_detect env registry ws events).1 := by
  have hreg : (websocket_detect env registry ws events).1 = registry := by
    unfold websocket_detect
    rw [show sessionLoop env events
        = ((sessionLoop env events).1, (sessionLoop env events).2) from rfl,
      hterm]
    simpa using cmDisconnect_cmConnect registry ws hfresh
  refine ⟨?_, hreg, by rw [hreg]; exact hfresh⟩
  unfold cmConnect
  simp

/-- Concrete instantiation of `C9_registry_invariant` on a disconnecting
session. -/
theorem C9_registry_invariant_witness :
    (cmConnect [] 7).count 7 = List.count 7 [] + 1
    ∧ (websocket_detect sampleEnv [] 7 [.disconnect]).1 = []
    ∧ 7 ∉ (websocket_detect sampleEnv [] 7 [.disconnect]).1 :=
  C9_registry_invariant sampleEnv [] 7 (by decide) [.disconnect] rfl

end TrashMuncher
